import Mathlib

/-!
Verification of the Kasoti Book Oracle chatbot core (app.py): the mode
classifier `detect_mode_and_clean_text`, the chat dispatcher `query_groq`,
the per-turn orchestrator `respond`, and `clear_chat`.

Strings are modelled with Lean `String`; the primitive operations used by
the Python code (`strip`, `lower`, `startswith`, substring membership,
`split(":", 1)[1]`) are embedded as executable functions over the
underlying character list.  The network is modelled as an oracle
`Payload → NetResult`; `query_groq` additionally returns the list of
requests it issued, so that "zero network calls" and "exactly one call"
are provable facts.
-/

namespace ChatbotLab

/-- A chat message dictionary: `{"role": ..., "content": ...}`. -/
structure Msg where
  role : String
  content : String
deriving DecidableEq

/-- Python `str.lower()` (ASCII case folding, which covers every keyword). -/
def lowerStr (s : String) : String := ⟨s.data.map Char.toLower⟩

/-- Drop leading and trailing whitespace from a character list. -/
def trimData (l : List Char) : List Char :=
  ((l.dropWhile Char.isWhitespace).reverse.dropWhile Char.isWhitespace).reverse

/-- Python `str.strip()`. -/
def trimStr (s : String) : String := ⟨trimData s.data⟩

/-- Python `s.startswith(p)`. -/
def startsWithStr (s p : String) : Bool := p.data.isPrefixOf s.data

/-- Substring search: does `pat` occur contiguously in the list? -/
def containsData (pat : List Char) : List Char → Bool
  | [] => pat.isEmpty
  | c :: rest => pat.isPrefixOf (c :: rest) || containsData pat rest

/-- Python `pat in s` (substring membership). -/
def strContains (s pat : String) : Bool := containsData pat.data s.data

/-- Everything after the first `':'` of the list (empty if there is none). -/
def afterColonData : List Char → List Char
  | [] => []
  | c :: rest => if c = ':' then rest else afterColonData rest

/-- Python `s.split(":", 1)[1]` for a string known to contain a colon. -/
def afterFirstColon (s : String) : String := ⟨afterColonData s.data⟩

/-- The quiz keyword set from `detect_mode_and_clean_text`. -/
def quiz_keywords : List String :=
  ["mcq", "mcqs", "quiz", "multiple choice", "objective", "test me",
   "choose the correct", "choose the right", "options", "a)", "b)", "c)", "d)"]

/-- The study keyword set from `detect_mode_and_clean_text`. -/
def study_keywords : List String :=
  ["summary", "summarize", "explain", "notes", "key points", "study", "revision",
   "overview", "theme", "themes", "plot", "characters", "author", "genre"]

/-- The clue keyword set from `detect_mode_and_clean_text`. -/
def clue_keywords : List String :=
  ["clue", "clues", "hint", "hints", "guess", "kasoti", "don't reveal", "dont reveal",
   "next clue", "harder clue", "reveal"]

/-- `sum(1 for k in quiz_keywords if k in low)`. -/
def quiz_score (low : String) : Nat := quiz_keywords.countP (fun k => strContains low k)

/-- `sum(1 for k in study_keywords if k in low)`. -/
def study_score (low : String) : Nat := study_keywords.countP (fun k => strContains low k)

/-- `sum(1 for k in clue_keywords if k in low)`. -/
def clue_score (low : String) : Nat := clue_keywords.countP (fun k => strContains low k)

/-- The mode classifier `detect_mode_and_clean_text` of app.py. -/
def detect_mode_and_clean_text (text : String) (current_mode : String) : String × String :=
  let t := trimStr text
  let low := lowerStr t
  if startsWithStr low "quiz mode:" then ("Quiz Mode", trimStr (afterFirstColon t))
  else if startsWithStr low "clue mode:" then ("Clue Mode", trimStr (afterFirstColon t))
  else if startsWithStr low "study mode:" then ("Study Mode", trimStr (afterFirstColon t))
  else
    let best := max (max (quiz_score low) (study_score low)) (clue_score low)
    if best = 0 then (current_mode, t)
    else if quiz_score low = best then ("Quiz Mode", t)
    else if study_score low = best then ("Study Mode", t)
    else ("Clue Mode", t)

/-- The `SYSTEM_PROMPT` constant of app.py (triple-quoted literal, stripped). -/
def SYSTEM_PROMPT : String :=
  "You are \"Kasoti Book Oracle\", a fun and sharp book-guessing mentor.\n\nCore behavior:\n- You can run in 3 modes:\n  1) Clue Mode: give 3–8 progressive clues (easy -> hard) about a book without revealing the title first.\n  2) Quiz Mode: ask short MCQs or quick questions about books/authors/characters/genres.\n  3) Study Mode: give a compact summary + author + genre + 3 key identifiers.\n\nRules:\n- If the user asks for a clue game, DO NOT reveal the book title until they say \"reveal\" or after 3 wrong guesses.\n- Keep responses clear, energetic, and classroom-friendly.\n- If user provides a book name, you can generate Kasoti-style clues for it."

/-- The fixed error message returned when `GROQ_API_KEY` is not set. -/
def MISSING_KEY_MSG : String :=
  "❌ Missing GROQ_API_KEY. Add it in Hugging Face Space → Settings → Secrets."

/-- Python truthiness of `GROQ_API_KEY`: `if not GROQ_API_KEY` is taken when the
environment variable is absent or set to the empty string. -/
def isConfigured : Option String → Bool
  | none => false
  | some s => !(s == "")

/-- The mode instruction line `f"Current mode: {mode}. Follow the mode rules strongly."`. -/
def mode_hint (mode : String) : String :=
  "Current mode: " ++ mode ++ ". Follow the mode rules strongly."

/-- The outbound message list built inside `query_groq`: the system message,
then a copy of each history entry appended in order, then the user message. -/
def build_messages (mode : String) (chat_history : List Msg) (user_message : String) :
    List Msg :=
  let init : List Msg := [⟨"system", SYSTEM_PROMPT ++ "\n\n" ++ mode_hint mode⟩]
  let withHist := chat_history.foldl (fun acc m => acc ++ [⟨m.role, m.content⟩]) init
  withHist ++ [⟨"user", user_message⟩]

/-- The JSON body of the POST request to the chat-completions endpoint. -/
structure Payload where
  model : String
  messages : List Msg
  temperature : Rat
  max_tokens : Int
deriving DecidableEq

/-- Outcome of the one `requests.post` call, as seen from inside the `try`
block: either a response arrived (with its status code, its raw body text, and
the result of attempting `r.json()["choices"][0]["message"]["content"]`, which
is `Except.error d` when the body is malformed and that indexing raises an
exception described by `d`), or the call itself raised (connection error,
timeout, ...), described by `d`. -/
inductive NetResult where
  | response (status : Nat) (body : String) (firstContent : Except String String)
  | raised (desc : String)

/-- The chat dispatcher `query_groq` of app.py.  The outside world is the
oracle `net`; the second component of the result is the list of requests
actually issued, so the guard branch provably performs zero network calls and
every other branch exactly one. -/
def query_groq (apiKey : Option String) (net : Payload → NetResult)
    (user_message : String) (chat_history : List Msg) (model_name : String)
    (temperature : Rat) (max_tokens : Int) (mode : String) : String × List Payload :=
  if !(isConfigured apiKey) then (MISSING_KEY_MSG, [])
  else
    let payload : Payload :=
      ⟨model_name, build_messages mode chat_history user_message, temperature, max_tokens⟩
    match net payload with
    | .raised d => ("❌ Request failed: " ++ d, [payload])
    | .response status body c =>
      if status = 200 then
        match c with
        | .ok content => (content, [payload])
        | .error d => ("❌ Request failed: " ++ d, [payload])
      else
        ("❌ Groq error " ++ toString status ++ ". Try another model.\n\nDetails: " ++ body,
         [payload])

/-- The per-turn orchestrator `respond` of app.py.  Returns the cleared message
box, the chatbot display, the state (both the same appended history), and the
new value of the mode selector. -/
def respond (apiKey : Option String) (net : Payload → NetResult) (message : String)
    (chat_history : List Msg) (model_name : String) (temperature : Rat)
    (max_tokens : Int) (current_mode : String) :
    String × List Msg × List Msg × String :=
  let mc := detect_mode_and_clean_text message current_mode
  let reply :=
    (query_groq apiKey net mc.2 chat_history model_name temperature max_tokens mc.1).1
  let h := chat_history ++ [⟨"user", mc.2⟩, ⟨"assistant", reply⟩]
  ("", h, h, mc.1)

/-- `clear_chat` of app.py: empties the chatbot display and the state, and sets
the mode selector back to "Clue Mode". -/
def clear_chat : List Msg × List Msg × String := ([], [], "Clue Mode")

/-- Session state threaded between turns by the presentation surface. -/
structure Session where
  history : List Msg
  mode : String

/-- Run `respond` over a list of submitted messages, threading history and mode. -/
def runTurns (apiKey : Option String) (net : Payload → NetResult)
    (model_name : String) (temperature : Rat) (max_tokens : Int) :
    List String → Session → Session
  | [], s => s
  | m :: ms, s =>
    let r := respond apiKey net m s.history model_name temperature max_tokens s.mode
    runTurns apiKey net model_name temperature max_tokens ms ⟨r.2.1, r.2.2.2⟩

/-- The history built from a list of (user text, assistant text) exchange pairs. -/
def pairsToHistory : List (String × String) → List Msg
  | [] => []
  | p :: ps => ⟨"user", p.1⟩ :: ⟨"assistant", p.2⟩ :: pairsToHistory ps

/-- Roles alternate user/assistant starting with user, and pair up exactly. -/
def rolesOk : List Msg → Bool
  | [] => true
  | [_] => false
  | u :: a :: rest => u.role == "user" && a.role == "assistant" && rolesOk rest

/-- The number of distinct keywords of `kws` occurring as substrings of `low`
(the spec's wording for a keyword-set score: presence per distinct keyword,
counted once). -/
def distinctFound (kws : List String) (low : String) : Nat :=
  ((kws.dedup).filter (fun k => strContains low k)).length

/-- Two nonempty lists with different heads cannot both be prefixes of `l`. -/
theorem isPrefixOf_false_of_head_ne {a b : Char} {as bs l : List Char} (hne : b ≠ a)
    (h : List.isPrefixOf (a :: as) l = true) : List.isPrefixOf (b :: bs) l = false := by
  cases l with
  | nil => simp [List.isPrefixOf] at h
  | cons x xs =>
    simp only [List.isPrefixOf, Bool.and_eq_true, beq_iff_eq] at h
    simp only [List.isPrefixOf, Bool.and_eq_false_iff]
    left
    simp only [beq_eq_false_iff_ne, ne_eq]
    intro hbx
    exact hne (hbx.trans h.1.symm)

/-- A text starting with one explicit mode marker cannot start with a marker
whose first character differs. -/
theorem startsWithStr_excl {low p q : String} {a b : Char} {as bs : List Char}
    (hp : p.data = a :: as) (hq : q.data = b :: bs) (hne : b ≠ a)
    (h : startsWithStr low p = true) : startsWithStr low q = false := by
  unfold startsWithStr at h ⊢
  rw [hq]
  rw [hp] at h
  exact isPrefixOf_false_of_head_ne hne h

theorem clue_not_quiz {low : String} (h : startsWithStr low "clue mode:" = true) :
    startsWithStr low "quiz mode:" = false :=
  startsWithStr_excl rfl rfl (by decide) h

theorem study_not_quiz {low : String} (h : startsWithStr low "study mode:" = true) :
    startsWithStr low "quiz mode:" = false :=
  startsWithStr_excl rfl rfl (by decide) h

theorem study_not_clue {low : String} (h : startsWithStr low "study mode:" = true) :
    startsWithStr low "clue mode:" = false :=
  startsWithStr_excl rfl rfl (by decide) h

/-- C2: an explicit "quiz mode:" / "clue mode:" / "study mode:" marker at the
start of the trimmed text (checked case-insensitively) forces the corresponding
mode, with cleaned text equal to everything after the first colon of the
trimmed text, trimmed; keyword scoring is short-circuited entirely. -/
theorem explicit_mode_marker_short_circuits (text current_mode : String) :
    (startsWithStr (lowerStr (trimStr text)) "quiz mode:" = true →
      detect_mode_and_clean_text text current_mode
        = ("Quiz Mode", trimStr (afterFirstColon (trimStr text))))
    ∧ (startsWithStr (lowerStr (trimStr text)) "clue mode:" = true →
      detect_mode_and_clean_text text current_mode
        = ("Clue Mode", trimStr (afterFirstColon (trimStr text))))
    ∧ (startsWithStr (lowerStr (trimStr text)) "study mode:" = true →
      detect_mode_and_clean_text text current_mode
        = ("Study Mode", trimStr (afterFirstColon (trimStr text)))) := by
  refine ⟨fun h => ?_, fun h => ?_, fun h => ?_⟩
  · simp [detect_mode_and_clean_text, h]
  · simp [detect_mode_and_clean_text, h, clue_not_quiz h]
  · simp [detect_mode_and_clean_text, h, study_not_quiz h, study_not_clue h]

/-- C2 witness: the spec's example, via the theorem's quiz conjunct. -/
theorem explicit_mode_marker_witness :
    detect_mode_and_clean_text "Quiz Mode: give me 5" "Clue Mode"
      = ("Quiz Mode", "give me 5") :=
  (explicit_mode_marker_short_circuits "Quiz Mode: give me 5" "Clue Mode").1 (by decide)

/-- C1: with no explicit mode marker, the classifier resolves by keyword
scores: current mode when the best score is 0, otherwise Quiz, then Study,
then Clue by tie-break priority, the cleaned text always being the trimmed
original text. -/
theorem keyword_resolution (text current_mode : String)
    (h1 : startsWithStr (lowerStr (trimStr text)) "quiz mode:" = false)
    (h2 : startsWithStr (lowerStr (trimStr text)) "clue mode:" = false)
    (h3 : startsWithStr (lowerStr (trimStr text)) "study mode:" = false) :
    detect_mode_and_clean_text text current_mode =
      (let low := lowerStr (trimStr text)
       let best := max (max (quiz_score low) (study_score low)) (clue_score low)
       if best = 0 then (current_mode, trimStr text)
       else if quiz_score low = best then ("Quiz Mode", trimStr text)
       else if study_score low = best then ("Study Mode", trimStr text)
       else ("Clue Mode", trimStr text)) := by
  simp only [detect_mode_and_clean_text, h1, h2, h3, Bool.false_eq_true, if_false]

/-- C1 witness: the spec's tie-break example — one quiz keyword and one study
keyword resolve Quiz, with the text unchanged. -/
theorem keyword_resolution_witness :
    detect_mode_and_clean_text "quiz me with a summary" "Clue Mode"
      = ("Quiz Mode", "quiz me with a summary") := by
  have h := keyword_resolution "quiz me with a summary" "Clue Mode"
    (by decide) (by decide) (by decide)
  rw [h]
  decide

/-- C3: each keyword-set score is the number of distinct keywords of that set
occurring as substrings of the lower-cased text (presence per distinct
keyword, counted once); and a text containing only clue keywords resolves
Clue regardless of the current mode, with the text unchanged. -/
theorem keyword_scores_distinct :
    (∀ low, quiz_score low = distinctFound quiz_keywords low)
    ∧ (∀ low, study_score low = distinctFound study_keywords low)
    ∧ (∀ low, clue_score low = distinctFound clue_keywords low)
    ∧ detect_mode_and_clean_text "Give me HINTS please" "Quiz Mode"
        = ("Clue Mode", "Give me HINTS please") := by
  refine ⟨fun low => ?_, fun low => ?_, fun low => ?_, by decide⟩
  · unfold quiz_score distinctFound
    rw [List.dedup_eq_self.mpr (by decide), List.countP_eq_length_filter]
  · unfold study_score distinctFound
    rw [List.dedup_eq_self.mpr (by decide), List.countP_eq_length_filter]
  · unfold clue_score distinctFound
    rw [List.dedup_eq_self.mpr (by decide), List.countP_eq_length_filter]

/-- C8: the classifier is a pure total function — the same (text, mode) pair
always yields the same result, and empty or whitespace-only input is valid,
scores zero keyword matches, and falls back to the current mode. -/
theorem classifier_deterministic_total :
    (∀ text mode,
      detect_mode_and_clean_text text mode = detect_mode_and_clean_text text mode)
    ∧ (∀ mode, detect_mode_and_clean_text "" mode = (mode, ""))
    ∧ (∀ mode, detect_mode_and_clean_text "  \t " mode = (mode, ""))
    ∧ quiz_score (lowerStr (trimStr "")) = 0
    ∧ study_score (lowerStr (trimStr "")) = 0
    ∧ clue_score (lowerStr (trimStr "")) = 0 :=
  ⟨fun _ _ => rfl, fun _ => rfl, fun _ => rfl, by decide, by decide, by decide⟩

/-- C9: the clear action empties the chatbot display and the history state and
resets the mode selector to "Clue Mode"; it takes no input, so this holds
regardless of the mode selected before clearing. -/
theorem clear_chat_resets : clear_chat = ([], [], "Clue Mode") := rfl

/-- C6: with no credential configured (unset or empty `GROQ_API_KEY`), the
dispatcher returns the fixed missing-credential message and issues zero
network requests, for every input. -/
theorem missing_key_short_circuit (apiKey : Option String) (net : Payload → NetResult)
    (user_message : String) (chat_history : List Msg) (model_name : String)
    (temperature : Rat) (max_tokens : Int) (mode : String)
    (h : isConfigured apiKey = false) :
    query_groq apiKey net user_message chat_history model_name temperature max_tokens mode
      = (MISSING_KEY_MSG, []) := by
  simp [query_groq, h]

/-- C6 witness: a concrete call with no key returns the fixed message and an
empty request list. -/
theorem missing_key_witness :
    query_groq none (fun _ => NetResult.raised "boom") "hi" [] "llama-3.3-70b-versatile"
      (7 / 10) 512 "Clue Mode" = (MISSING_KEY_MSG, []) :=
  missing_key_short_circuit none (fun _ => NetResult.raised "boom") "hi" []
    "llama-3.3-70b-versatile" (7 / 10) 512 "Clue Mode" rfl

/-- C4: once configured, the dispatcher issues exactly one request and never
propagates a failure: a 200 response yields the first completion's content
verbatim; a non-200 response yields an error string embedding the status code
and the raw body; a malformed 200 body or a raised transport failure yields an
error string embedding the failure's description. -/
theorem dispatcher_never_fails (apiKey : Option String) (net : Payload → NetResult)
    (user_message : String) (chat_history : List Msg) (model_name : String)
    (temperature : Rat) (max_tokens : Int) (mode : String)
    (hk : isConfigured apiKey = true) :
    (∀ body content,
      net ⟨model_name, build_messages mode chat_history user_message, temperature,
            max_tokens⟩ = .response 200 body (.ok content) →
      query_groq apiKey net user_message chat_history model_name temperature max_tokens mode
        = (content,
           [⟨model_name, build_messages mode chat_history user_message, temperature,
             max_tokens⟩]))
    ∧ (∀ status body c,
      net ⟨model_name, build_messages mode chat_history user_message, temperature,
            max_tokens⟩ = .response status body c → status ≠ 200 →
      query_groq apiKey net user_message chat_history model_name temperature max_tokens mode
        = ("❌ Groq error " ++ toString status ++ ". Try another model.\n\nDetails: " ++ body,
           [⟨model_name, build_messages mode chat_history user_message, temperature,
             max_tokens⟩]))
    ∧ (∀ body d,
      net ⟨model_name, build_messages mode chat_history user_message, temperature,
            max_tokens⟩ = .response 200 body (.error d) →
      query_groq apiKey net user_message chat_history model_name temperature max_tokens mode
        = ("❌ Request failed: " ++ d,
           [⟨model_name, build_messages mode chat_history user_message, temperature,
             max_tokens⟩]))
    ∧ (∀ d,
      net ⟨model_name, build_messages mode chat_history user_message, temperature,
            max_tokens⟩ = .raised d →
      query_groq apiKey net user_message chat_history model_name temperature max_tokens mode
        = ("❌ Request failed: " ++ d,
           [⟨model_name, build_messages mode chat_history user_message, temperature,
             max_tokens⟩])) := by
  refine ⟨fun body content hnet => ?_, fun status body c hnet hst => ?_,
    fun body d hnet => ?_, fun d hnet => ?_⟩
  · simp [query_groq, hk, hnet]
  · simp [query_groq, hk, hnet, hst]
  · simp [query_groq, hk, hnet]
  · simp [query_groq, hk, hnet]

/-- C4 witness: a concrete 200 response is returned verbatim alongside the one
issued request. -/
theorem dispatcher_never_fails_witness :
    query_groq (some "k") (fun _ => NetResult.response 200 "raw" (Except.ok "hello"))
      "hi" [] "llama-3.3-70b-versatile" (7 / 10) 512 "Clue Mode"
      = ("hello",
         [⟨"llama-3.3-70b-versatile", build_messages "Clue Mode" [] "hi", 7 / 10, 512⟩]) :=
  (dispatcher_never_fails (some "k")
      (fun _ => NetResult.response 200 "raw" (Except.ok "hello"))
      "hi" [] "llama-3.3-70b-versatile" (7 / 10) 512 "Clue Mode" rfl).1
    "raw" "hello" rfl

/-- Appending copies of the history entries one at a time is the same as
appending the history itself. -/
theorem foldl_push_copies (l init : List Msg) :
    l.foldl (fun acc m => acc ++ [(⟨m.role, m.content⟩ : Msg)]) init = init ++ l := by
  induction l generalizing init with
  | nil => simp
  | cons m rest ih => rw [List.foldl_cons, ih]; simp

/-- C7: the outbound message list is the system message (fixed prompt plus the
generated mode instruction line), then every prior history entry in original
order with role and content preserved, then the new user message last — so its
length is the history length plus 2; and the one request a configured
dispatcher issues carries exactly this list. -/
theorem outbound_messages_shape (mode : String) (chat_history : List Msg)
    (user_message : String) (apiKey : Option String) (net : Payload → NetResult)
    (model_name : String) (temperature : Rat) (max_tokens : Int) :
    build_messages mode chat_history user_message
      = ⟨"system", SYSTEM_PROMPT ++ "\n\n" ++ mode_hint mode⟩
          :: (chat_history ++ [⟨"user", user_message⟩])
    ∧ (build_messages mode chat_history user_message).length = chat_history.length + 2
    ∧ (isConfigured apiKey = true →
        (query_groq apiKey net user_message chat_history model_name temperature
            max_tokens mode).2
          = [⟨model_name, build_messages mode chat_history user_message, temperature,
              max_tokens⟩]) := by
  have hb : build_messages mode chat_history user_message
      = ⟨"system", SYSTEM_PROMPT ++ "\n\n" ++ mode_hint mode⟩
          :: (chat_history ++ [⟨"user", user_message⟩]) := by
    simp only [build_messages]
    rw [foldl_push_copies]
    simp
  refine ⟨hb, ?_, fun hk => ?_⟩
  · rw [hb]; simp
  · simp only [query_groq, hk, Bool.not_true, Bool.false_eq_true, if_false]
    cases hnet : net ⟨model_name, build_messages mode chat_history user_message,
        temperature, max_tokens⟩ with
    | raised d => simp
    | response status body c =>
      by_cases hst : status = 200
      · cases c with
        | ok content => simp [hst]
        | error d => simp [hst]
      · simp [hst]

/-- C7 witness: a concrete configured call issues one request whose message
list is the built one. -/
theorem outbound_messages_witness :
    (query_groq (some "k") (fun _ => NetResult.raised "boom") "hi" []
        "llama-3.3-70b-versatile" (7 / 10) 512 "Quiz Mode").2
      = [⟨"llama-3.3-70b-versatile", build_messages "Quiz Mode" [] "hi", 7 / 10, 512⟩] :=
  (outbound_messages_shape "Quiz Mode" [] "hi" (some "k")
      (fun _ => NetResult.raised "boom") "llama-3.3-70b-versatile" (7 / 10) 512).2.2 rfl

theorem pairsToHistory_append (ps : List (String × String)) (u a : String) :
    pairsToHistory (ps ++ [(u, a)])
      = pairsToHistory ps ++ [⟨"user", u⟩, ⟨"assistant", a⟩] := by
  induction ps with
  | nil => rfl
  | cons q qs ih => simp [pairsToHistory, ih]

theorem pairsToHistory_length (ps : List (String × String)) :
    (pairsToHistory ps).length = 2 * ps.length := by
  induction ps with
  | nil => rfl
  | cons q qs ih => simp [pairsToHistory, ih]; omega

theorem rolesOk_pairsToHistory (ps : List (String × String)) :
    rolesOk (pairsToHistory ps) = true := by
  induction ps with
  | nil => rfl
  | cons q qs ih => simp [pairsToHistory, rolesOk, ih]

/-- Each turn appends the (user, assistant) pair and nothing else; the new
mode is the one the classifier resolved. -/
theorem respond_appends (apiKey : Option String) (net : Payload → NetResult)
    (message : String) (chat_history : List Msg) (model_name : String)
    (temperature : Rat) (max_tokens : Int) (current_mode : String) :
    ∃ u a,
      (respond apiKey net message chat_history model_name temperature max_tokens
          current_mode).2.1 = chat_history ++ [⟨"user", u⟩, ⟨"assistant", a⟩]
      ∧ (respond apiKey net message chat_history model_name temperature max_tokens
          current_mode).2.2.2 = (detect_mode_and_clean_text message current_mode).1 :=
  ⟨_, _, rfl, rfl⟩

/-- Running any number of turns from a history made of whole exchange pairs
yields a history made of whole exchange pairs, one new pair per turn. -/
theorem runTurns_shape (apiKey : Option String) (net : Payload → NetResult)
    (model_name : String) (temperature : Rat) (max_tokens : Int) :
    ∀ (msgs : List String) (ps : List (String × String)) (mode : String),
      ∃ (qs : List (String × String)) (m2 : String),
        runTurns apiKey net model_name temperature max_tokens msgs
            ⟨pairsToHistory ps, mode⟩
          = ⟨pairsToHistory (ps ++ qs), m2⟩
        ∧ qs.length = msgs.length := by
  intro msgs
  induction msgs with
  | nil => intro ps mode; exact ⟨[], mode, by simp [runTurns], rfl⟩
  | cons m ms ih =>
    intro ps mode
    obtain ⟨u, a, hh, hm⟩ :=
      respond_appends apiKey net m (pairsToHistory ps) model_name temperature
        max_tokens mode
    obtain ⟨qs, m2, heq, hlen⟩ := ih (ps ++ [(u, a)]) (detect_mode_and_clean_text m mode).1
    rw [pairsToHistory_append] at heq
    refine ⟨(u, a) :: qs, m2, ?_, by simp [hlen]⟩
    simp only [runTurns]
    rw [hh, hm]
    rw [show ps ++ (u, a) :: qs = (ps ++ [(u, a)]) ++ qs by simp]
    exact heq

/-- C5: every turn appends exactly one user entry then one assistant entry to
the existing history (earlier entries untouched, error replies included), so N
turns from an empty conversation give a history of length exactly 2N whose
roles alternate user/assistant starting with user. -/
theorem history_append_invariant (apiKey : Option String) (net : Payload → NetResult)
    (model_name : String) (temperature : Rat) (max_tokens : Int) :
    (∀ message chat_history current_mode,
      (respond apiKey net message chat_history model_name temperature max_tokens
          current_mode).2.1
        = chat_history ++
            [⟨"user", (detect_mode_and_clean_text message current_mode).2⟩,
             ⟨"assistant",
              (query_groq apiKey net (detect_mode_and_clean_text message current_mode).2
                  chat_history model_name temperature max_tokens
                  (detect_mode_and_clean_text message current_mode).1).1⟩])
    ∧ (∀ (msgs : List String) (start_mode : String),
        (runTurns apiKey net model_name temperature max_tokens msgs
            ⟨[], start_mode⟩).history.length = 2 * msgs.length
        ∧ rolesOk (runTurns apiKey net model_name temperature max_tokens msgs
            ⟨[], start_mode⟩).history = true) := by
  constructor
  · intro message chat_history current_mode; rfl
  · intro msgs m0
    obtain ⟨qs, m2, heq, hlen⟩ :=
      runTurns_shape apiKey net model_name temperature max_tokens msgs [] m0
    simp only [pairsToHistory, List.nil_append] at heq
    rw [heq]
    exact ⟨by simp [pairsToHistory_length, hlen], rolesOk_pairsToHistory qs⟩

/-- C10: the stored user turn is the classifier's cleaned message, not the raw
input, and the mode handed back to the presentation surface is the resolved
mode — also on error turns: with no credential, "Quiz Mode: give me 5" stores
user turn "give me 5", assistant turn the missing-credential message, and
still returns mode "Quiz Mode". -/
theorem stored_turn_is_cleaned (apiKey : Option String) (net : Payload → NetResult)
    (message : String) (chat_history : List Msg) (model_name : String)
    (temperature : Rat) (max_tokens : Int) (current_mode : String) :
    (respond apiKey net message chat_history model_name temperature max_tokens
        current_mode).2.2.2 = (detect_mode_and_clean_text message current_mode).1
    ∧ (respond apiKey net message chat_history model_name temperature max_tokens
        current_mode).2.1
      = chat_history ++
          [⟨"user", (detect_mode_and_clean_text message current_mode).2⟩,
           ⟨"assistant",
            (query_groq apiKey net (detect_mode_and_clean_text message current_mode).2
                chat_history model_name temperature max_tokens
                (detect_mode_and_clean_text message current_mode).1).1⟩]
    ∧ (respond none net "Quiz Mode: give me 5" chat_history model_name temperature
        max_tokens current_mode).2.1
      = chat_history ++ [⟨"user", "give me 5"⟩, ⟨"assistant", MISSING_KEY_MSG⟩]
    ∧ (respond none net "Quiz Mode: give me 5" chat_history model_name temperature
        max_tokens current_mode).2.2.2 = "Quiz Mode" :=
  ⟨rfl, rfl, rfl, rfl⟩

end ChatbotLab
